import Mathlib

/-!
Shallow embedding of the mythiq-media-creator prompt-analysis and media
generation code (src/media_ai.py, src/video_generator.py,
src/audio_generator.py), together with theorems settling the frozen
claims about it.

Python strings are modelled as Lean `String` / `List Char`; Python's
`needle in hay` substring test is `containsStr`; `str.lower()` is
`pyLower` (ASCII case folding, which matches the repository's ASCII
taxonomies); Python floats in the confidence computation are modelled as
exact rationals `ℚ` (all literals involved, 0.1/0.2/0.3/1.0, denote the
same rational operations the code performs); `datetime.now()` is
modelled as an explicit `now` input to `analyzePrompt`.
-/

/-- Decides whether the first list is a prefix of the second. -/
def isPrefixB : List Char → List Char → Bool
  | [], _ => true
  | _ :: _, [] => false
  | a :: as, b :: bs => a == b && isPrefixB as bs

/-- Decides whether `n` occurs as a contiguous sublist of the second list. -/
def isSubB (n : List Char) : List Char → Bool
  | [] => n.isEmpty
  | c :: hs => isPrefixB n (c :: hs) || isSubB n hs

/-- Python's `needle in hay` substring test on strings. -/
def containsStr (hay needle : String) : Bool := isSubB needle.data hay.data

/-- Python's `any(word in prompt for word in ws)`. -/
def anyKw (pl : String) (ws : List String) : Bool :=
  ws.any (fun w => containsStr pl w)

/-- `sum(1 for keyword in keywords if keyword in prompt)` from the detectors
of media_ai.py. -/
def kwScore (p : String) (kws : List String) : Nat :=
  (kws.filter (fun k => containsStr p k)).length

/-- Splits a character list into the maximal runs of characters satisfying
`keep`; `acc` holds the current run reversed. -/
def splitRunsAux (keep : Char → Bool) : List Char → List Char → List (List Char)
  | [], acc => if acc.isEmpty then [] else [acc.reverse]
  | c :: cs, acc =>
    if keep c then splitRunsAux keep cs (c :: acc)
    else if acc.isEmpty then splitRunsAux keep cs []
    else acc.reverse :: splitRunsAux keep cs []

/-- Maximal runs of characters satisfying `keep`. -/
def splitRuns (keep : Char → Bool) (l : List Char) : List (List Char) :=
  splitRunsAux keep l []

/-- A regex `\w` word character (ASCII reading). -/
def isWordChar (c : Char) : Bool := c.isAlphanum || c == '_'

/-- `re.findall(r'\b\w+\b', s)`: the maximal runs of word characters. -/
def pyWords (s : String) : List String :=
  (splitRuns isWordChar s.data).map (fun l => String.mk l)

/-- `len(s.split())`: the number of whitespace-separated words. -/
def wordCount (s : String) : Nat :=
  (splitRuns (fun c => !c.isWhitespace) s.data).length

/-- `s.lower()` (ASCII case folding). -/
def pyLower (s : String) : String := String.mk (s.data.map Char.toLower)

/-- `MediaAI.media_types` from media_ai.py. -/
def mediaTypes : List (String × List String) :=
  [("image", ["image", "picture", "photo", "art", "drawing", "character",
      "background", "scene", "sprite", "icon", "logo", "design"]),
   ("video", ["video", "animation", "movie", "clip", "gif", "motion",
      "animate", "sequence", "cinematic", "trailer"]),
   ("audio", ["audio", "music", "sound", "song", "melody", "beat",
      "soundtrack", "effect", "voice", "noise"])]

/-- `MediaAI.themes` from media_ai.py. -/
def themes : List (String × List String) :=
  [("ninja", ["ninja", "stealth", "shadow", "assassin", "katana", "shuriken",
      "martial", "japanese"]),
   ("space", ["space", "cosmic", "galaxy", "star", "planet", "alien",
      "sci-fi", "futuristic", "spaceship"]),
   ("medieval", ["medieval", "knight", "castle", "sword", "armor", "dragon",
      "fantasy", "kingdom", "royal"]),
   ("forest", ["forest", "tree", "nature", "woodland", "green", "leaf",
      "branch", "natural", "wild"]),
   ("underwater", ["underwater", "ocean", "sea", "fish", "coral", "deep",
      "aquatic", "marine", "blue"])]

/-- `MediaAI.styles` from media_ai.py. -/
def styles : List (String × List String) :=
  [("realistic", ["realistic", "photorealistic", "detailed", "lifelike",
      "accurate", "precise"]),
   ("cartoon", ["cartoon", "animated", "stylized", "cute", "colorful",
      "fun", "playful"]),
   ("abstract", ["abstract", "artistic", "creative", "unique",
      "experimental", "modern"]),
   ("minimalist", ["minimalist", "simple", "clean", "basic", "minimal",
      "elegant"]),
   ("retro", ["retro", "vintage", "classic", "old-school", "8-bit",
      "pixel", "nostalgic"])]

/-- `MediaAI.moods` from media_ai.py. -/
def moods : List (String × List String) :=
  [("epic", ["epic", "dramatic", "intense", "powerful", "heroic", "grand",
      "majestic"]),
   ("peaceful", ["peaceful", "calm", "relaxing", "serene", "tranquil",
      "gentle", "soothing"]),
   ("dark", ["dark", "mysterious", "gothic", "sinister", "ominous",
      "shadowy", "eerie"]),
   ("bright", ["bright", "cheerful", "happy", "vibrant", "energetic",
      "positive", "uplifting"]),
   ("mysterious", ["mysterious", "enigmatic", "cryptic", "hidden", "secret",
      "unknown"])]

/-- `MediaAI.complexity_indicators` from media_ai.py. -/
def complexityIndicators : List (String × List String) :=
  [("simple", ["simple", "basic", "easy", "quick", "minimal", "plain"]),
   ("detailed", ["detailed", "complex", "intricate", "elaborate",
      "sophisticated", "advanced"]),
   ("professional", ["professional", "high-quality", "polished", "refined",
      "premium"])]

/-- The per-label score dictionary `{label: score}` a detector builds,
in declaration (= Python dict insertion) order. -/
def scoresOf (table : List (String × List String)) (p : String) :
    List (String × Nat) :=
  table.map (fun e => (e.1, kwScore p e.2))

/-- Python's `max(iterable, key=value)` on a nonempty association list:
the fold keeps the current best and replaces it only on a strictly larger
value, so the first entry attaining the maximum wins. -/
def pickMax (best : String × Nat) : List (String × Nat) → String × Nat
  | [] => best
  | x :: xs => pickMax (if best.2 < x.2 then x else best) xs

/-- The common tail of every detector: `if not scores or max(scores.values())
== 0: return default; return max(scores, key=scores.get)`. -/
def selectLabel (scores : List (String × Nat)) (dflt : String) : String :=
  match scores with
  | [] => dflt
  | s :: rest =>
    if (s :: rest).all (fun e => e.2 == 0) then dflt else (pickMax s rest).1

/-- `MediaAI._detect_media_type` (takes the already lowered prompt). -/
def detectMediaType (p : String) : String :=
  selectLabel (scoresOf mediaTypes p) "image"

/-- `MediaAI._detect_theme`. -/
def detectTheme (p : String) : String :=
  selectLabel (scoresOf themes p) "default"

/-- `MediaAI._detect_style`. -/
def detectStyle (p : String) : String :=
  selectLabel (scoresOf styles p) "default"

/-- `MediaAI._detect_mood`. -/
def detectMood (p : String) : String :=
  selectLabel (scoresOf moods p) "neutral"

/-- `scores[k] = scores.get(k, 0) + 1` for a key `k` already present:
the entry keeps its position in the dictionary. -/
def bump (l : List (String × Nat)) (k : String) : List (String × Nat) :=
  l.map (fun e => if e.1 = k then (e.1, e.2 + 1) else e)

/-- The word-count-adjusted score list of `MediaAI._detect_complexity`:
the keyword scores, then `scores['detailed'] += 1` when the prompt has
more than 10 whitespace words and `scores['simple'] += 1` when it has
fewer than 5. -/
def complexityScores (p : String) : List (String × Nat) :=
  if 10 < wordCount p then bump (scoresOf complexityIndicators p) "detailed"
  else if wordCount p < 5 then bump (scoresOf complexityIndicators p) "simple"
  else scoresOf complexityIndicators p

/-- `MediaAI._detect_complexity`. -/
def detectComplexity (p : String) : String :=
  selectLabel (complexityScores p) "medium"

/-- `stop_words` of `MediaAI._extract_keywords`. -/
def stopWords : List String :=
  ["a", "an", "the", "and", "or", "but", "in", "on", "at", "to", "for",
   "of", "with", "by", "is", "are", "was", "were", "be", "been", "being",
   "have", "has", "had", "do", "does", "did", "will", "would", "could",
   "should", "may", "might", "must", "can", "create", "make", "generate",
   "build"]

/-- `MediaAI._extract_keywords` (takes the already lowered prompt). -/
def extractKeywords (p : String) : List String :=
  ((pyWords p).filter
    (fun w => !stopWords.contains w && decide (2 < w.length))).take 10

/-- `MediaAI._calculate_confidence`, with Python floats modelled as exact
rationals. -/
def calcConfidence (mt th st md : String) (nk : Nat) : ℚ :=
  let c1 : ℚ := if mt ≠ "image" then 0.3 else 0.1
  let c2 : ℚ := c1 + (if th ≠ "default" then 0.2 else 0)
  let c3 : ℚ := c2 + (if st ≠ "default" then 0.2 else 0)
  let c4 : ℚ := c3 + (if md ≠ "neutral" then 0.1 else 0)
  let c5 : ℚ := c4 + min ((nk : ℚ) / 5) 0.2
  min c5 1

/-- `MediaAI._determine_strategy`. -/
def determineStrategy (mt cx th : String) (kws : List String) : String :=
  if mt = "image" then
    if cx = "simple" then "svg_template"
    else if th ≠ "default" then "themed_svg_generation"
    else "procedural_svg"
  else if mt = "video" then
    if cx = "simple" then "css_animation" else "advanced_css_animation"
  else if mt = "audio" then
    if kws.contains "music" then "web_audio_composition"
    else "web_audio_effects"
  else "default_generation"

/-- `MediaAI._estimate_generation_time`. -/
def estimateTime (mt cx : String) : Nat :=
  (if mt = "video" then 2 else 1) +
    (if cx = "detailed" then 1 else if cx = "professional" then 2 else 0)

/-- `MediaAI._recommend_format`. -/
def recommendFormat (mt cx : String) : String :=
  if mt = "image" then
    if cx = "simple" then "svg" else "svg_with_css"
  else if mt = "video" then "css_animation_html"
  else if mt = "audio" then "web_audio_javascript"
  else "svg"

/-- The analysis record returned by `MediaAI.analyze_prompt`. -/
structure Analysis where
  original_prompt : String
  media_type : String
  theme : String
  style : String
  mood : String
  complexity : String
  keywords : List String
  confidence : ℚ
  generation_strategy : String
  estimated_time : Nat
  recommended_format : String
  analysis_timestamp : String
deriving DecidableEq

/-- `MediaAI.analyze_prompt`; `datetime.now().isoformat()` is modelled as
the explicit `now` argument. -/
def analyzePrompt (prompt : String) (now : String) : Analysis :=
  let pl := pyLower prompt
  let mt := detectMediaType pl
  let th := detectTheme pl
  let st := detectStyle pl
  let md := detectMood pl
  let cx := detectComplexity pl
  let kw := extractKeywords pl
  { original_prompt := prompt
    media_type := mt
    theme := th
    style := st
    mood := md
    complexity := cx
    keywords := kw
    confidence := calcConfidence mt th st md kw.length
    generation_strategy := determineStrategy mt cx th kw
    estimated_time := estimateTime mt cx
    recommended_format := recommendFormat mt cx
    analysis_timestamp := now }

/-- `VideoGenerator.duration_presets` from video_generator.py. -/
def durationPresets : List (String × Nat) :=
  [("quick", 2), ("short", 5), ("medium", 10), ("long", 15), ("extended", 30)]

/-- `self.duration_presets[k]` for the keys the code uses (all present). -/
def presetD (k : String) : Nat :=
  ((durationPresets.find? (fun e => e.1 == k)).map (fun e => e.2)).getD 0

/-- `VideoGenerator._determine_animation_type`; the `keywords` parameter is
accepted but unused, as in the source. -/
def determineAnimationType (kws : List String) (p : String) : String :=
  if anyKw (pyLower p) ["walk", "walking", "move", "moving", "run", "running"]
    then "character_walk"
  else if anyKw (pyLower p) ["attack", "fighting", "battle", "combat", "strike"]
    then "character_attack"
  else if anyKw (pyLower p) ["idle", "standing", "breathing", "waiting"] then
    "character_idle"
  else if anyKw (pyLower p) ["flow", "flowing", "water", "wind", "particles"]
    then "environment_flow"
  else if anyKw (pyLower p) ["transition", "fade", "slide", "ui", "interface"]
    then "ui_transition"
  else if anyKw (pyLower p)
      ["particle", "effect", "magic", "sparkle", "explosion"] then
    "particle_effect"
  else if anyKw (pyLower p) ["text", "title", "reveal", "typewriter"] then
    "text_reveal"
  else if anyKw (pyLower p) ["logo", "brand", "intro", "opening"] then
    "logo_animation"
  else "character_idle"

/-- `VideoGenerator._determine_duration`; the `keywords` parameter is unused,
as in the source. -/
def videoDetermineDuration (kws : List String) (p cx : String) : Nat :=
  if anyKw (pyLower p) ["quick", "fast", "brief"] then presetD "quick"
  else if anyKw (pyLower p) ["short"] then presetD "short"
  else if anyKw (pyLower p) ["long", "extended", "detailed"] then
    presetD "long"
  else if cx = "simple" then presetD "short"
  else if cx = "detailed" then presetD "medium"
  else if cx = "professional" then presetD "long"
  else presetD "medium"

/-- `AudioGenerator._determine_duration`; the `keywords` parameter is unused,
as in the source. -/
def audioDetermineDuration (kws : List String) (p cx : String) : Nat :=
  if anyKw (pyLower p) ["short", "brief", "quick"] then 10
  else if anyKw (pyLower p) ["long", "extended"] then 60
  else if anyKw (pyLower p) ["loop", "background"] then 30
  else if cx = "simple" then 15
  else if cx = "detailed" then 45
  else if cx = "professional" then 60
  else 30

/-- One entry of `AudioGenerator.music_styles`. -/
structure MusicStyle where
  tempo : Nat
  key : String
  scale : String
  instruments : List String
  mood : String
deriving DecidableEq

/-- The `'peaceful'` entry of `AudioGenerator.music_styles`. -/
def peacefulStyle : MusicStyle :=
  ⟨80, "G", "major", ["piano", "strings", "flute"], "calm"⟩

/-- `AudioGenerator.music_styles` from audio_generator.py. -/
def musicStyles : List (String × MusicStyle) :=
  [("epic", ⟨120, "C", "minor", ["strings", "brass", "percussion"], "dramatic"⟩),
   ("peaceful", peacefulStyle),
   ("dark", ⟨100, "D", "minor", ["bass", "synth", "percussion"], "mysterious"⟩),
   ("bright", ⟨140, "C", "major", ["piano", "guitar", "percussion"], "happy"⟩),
   ("mysterious", ⟨90, "F#", "minor", ["synth", "strings", "ambient"], "enigmatic"⟩)]

/-- `self.music_styles.get(mood, self.music_styles['peaceful'])` from
`AudioGenerator._generate_music`. -/
def musicStyleFor (mood : String) : MusicStyle :=
  ((musicStyles.find? (fun e => e.1 == mood)).map (fun e => e.2)).getD
    peacefulStyle

theorem isPrefixB_trans {a b h : List Char} (hab : isPrefixB a b = true)
    (hbh : isPrefixB b h = true) : isPrefixB a h = true := by
  induction a generalizing b h with
  | nil => simp [isPrefixB]
  | cons x xs ih =>
    cases b with
    | nil => simp [isPrefixB] at hab
    | cons y ys =>
      cases h with
      | nil => simp [isPrefixB] at hbh
      | cons z zs =>
        simp only [isPrefixB, Bool.and_eq_true, beq_iff_eq] at hab hbh ⊢
        exact ⟨hab.1.trans hbh.1, ih hab.2 hbh.2⟩

theorem isPrefixB_append (x y : List Char) : isPrefixB x (x ++ y) = true := by
  induction x with
  | nil => simp [isPrefixB]
  | cons c cs ih => simp [isPrefixB, ih]

theorem isSubB_of_prefixB {n h : List Char} (hp : isPrefixB n h = true) :
    isSubB n h = true := by
  cases h with
  | nil =>
    cases n with
    | nil => simp [isSubB]
    | cons c cs => simp [isPrefixB] at hp
  | cons c hs => simp [isSubB, hp]

theorem isSubB_cons {n hs : List Char} (c : Char) (h : isSubB n hs = true) :
    isSubB n (c :: hs) = true := by
  simp [isSubB, h]

theorem isSubB_append_left {n l : List Char} (pre : List Char)
    (h : isSubB n l = true) : isSubB n (pre ++ l) = true := by
  induction pre with
  | nil => simpa using h
  | cons c cs ih => simpa using isSubB_cons c ih

theorem isSubB_trans_prefixB {a b l : List Char} (hab : isPrefixB a b = true)
    (hbl : isSubB b l = true) : isSubB a l = true := by
  induction l with
  | nil =>
    simp only [isSubB, List.isEmpty_iff] at hbl
    subst hbl
    cases a with
    | nil => simp [isSubB]
    | cons c cs => simp [isPrefixB] at hab
  | cons c cs ih =>
    simp only [isSubB, Bool.or_eq_true] at hbl ⊢
    rcases hbl with h1 | h2
    · exact Or.inl (isPrefixB_trans hab h1)
    · exact Or.inr (ih h2)

theorem splitRunsAux_isSubB (keep : Char → Bool) (l : List Char) :
    ∀ acc w, w ∈ splitRunsAux keep l acc →
      isSubB w (acc.reverse ++ l) = true := by
  induction l with
  | nil =>
    intro acc w hw
    simp only [splitRunsAux] at hw
    by_cases hacc : acc.isEmpty
    · simp [hacc] at hw
    · rw [if_neg hacc] at hw
      rcases List.mem_singleton.mp hw with rfl
      rw [List.append_nil]
      exact isSubB_of_prefixB
        (by simpa using isPrefixB_append acc.reverse [])
  | cons c cs ih =>
    intro acc w hw
    simp only [splitRunsAux] at hw
    by_cases hk : keep c
    · rw [if_pos hk] at hw
      have := ih (c :: acc) w hw
      simpa [List.append_assoc] using this
    · rw [if_neg hk] at hw
      by_cases hacc : acc.isEmpty
      · rw [if_pos hacc] at hw
        have hae : acc = [] := List.isEmpty_iff.mp hacc
        subst hae
        have := ih [] w hw
        simpa using isSubB_cons c (by simpa using this)
      · rw [if_neg hacc] at hw
        rcases List.mem_cons.mp hw with rfl | hw2
        · exact isSubB_of_prefixB (isPrefixB_append acc.reverse (c :: cs))
        · have := ih [] w hw2
          exact isSubB_append_left acc.reverse
            (isSubB_cons c (by simpa using this))

theorem mem_pyWords_isSubB {w s : String} (hw : w ∈ pyWords s) :
    isSubB w.data s.data = true := by
  simp only [pyWords, List.mem_map] at hw
  obtain ⟨l, hl, hlw⟩ := hw
  have hdata : w.data = l := by rw [← hlw]
  rw [hdata]
  simpa using splitRunsAux_isSubB isWordChar s.data [] l hl

theorem extractKeywords_subset_pyWords {w p : String}
    (hw : w ∈ extractKeywords p) : w ∈ pyWords p := by
  simp only [extractKeywords] at hw
  exact (List.mem_filter.mp (List.take_subset _ _ hw)).1

theorem pickMax_le (l : List (String × Nat)) :
    ∀ best, best.2 ≤ (pickMax best l).2 ∧
      ∀ x ∈ l, x.2 ≤ (pickMax best l).2 := by
  induction l with
  | nil => intro best; exact ⟨le_refl _, by simp⟩
  | cons x xs ih =>
    intro best
    by_cases hx : best.2 < x.2
    · simp only [pickMax, if_pos hx]
      obtain ⟨h1, h2⟩ := ih x
      refine ⟨le_trans (le_of_lt hx) h1, ?_⟩
      intro y hy
      rcases List.mem_cons.mp hy with rfl | hy2
      · exact h1
      · exact h2 y hy2
    · simp only [pickMax, if_neg hx]
      obtain ⟨h1, h2⟩ := ih best
      refine ⟨h1, ?_⟩
      intro y hy
      rcases List.mem_cons.mp hy with rfl | hy2
      · exact le_trans (Nat.le_of_not_lt hx) h1
      · exact h2 y hy2

theorem pickMax_first (l : List (String × Nat)) :
    ∀ best, ∃ pre post, best :: l = pre ++ (pickMax best l) :: post ∧
      ∀ x ∈ pre, x.2 < (pickMax best l).2 := by
  induction l with
  | nil => intro best; exact ⟨[], [], rfl, by simp⟩
  | cons x xs ih =>
    intro best
    by_cases hx : best.2 < x.2
    · simp only [pickMax, if_pos hx]
      obtain ⟨pre, post, heq, hlt⟩ := ih x
      refine ⟨best :: pre, post, ?_, ?_⟩
      · rw [List.cons_append, ← heq]
      · intro y hy
        rcases List.mem_cons.mp hy with rfl | hy2
        · exact lt_of_lt_of_le hx (pickMax_le xs x).1
        · exact hlt y hy2
    · simp only [pickMax, if_neg hx]
      obtain ⟨pre, post, heq, hlt⟩ := ih best
      cases pre with
      | nil =>
        simp only [List.nil_append] at heq
        injection heq with h1 h2
        refine ⟨[], x :: xs, ?_, by simp⟩
        rw [List.nil_append, ← h1]
      | cons q pre' =>
        rw [List.cons_append] at heq
        injection heq with h1 h2
        have hb : best.2 < (pickMax best xs).2 := by
          have := hlt q (List.mem_cons_self q pre')
          rwa [← h1] at this
        refine ⟨best :: x :: pre', post, ?_, ?_⟩
        · conv_lhs => rw [h2]
          rw [List.cons_append, List.cons_append]
        · intro y hy
          rcases List.mem_cons.mp hy with rfl | hy2
          · exact hb
          rcases List.mem_cons.mp hy2 with rfl | hy3
          · exact lt_of_le_of_lt (Nat.le_of_not_lt hx) hb
          · exact hlt y (List.mem_cons_of_mem q hy3)

/-- The returned label is the first entry attaining the maximal score:
every earlier entry scores strictly less, every later entry at most as
much. -/
def IsFirstMax (scores : List (String × Nat)) (r : String) : Prop :=
  ∃ pre s post, scores = pre ++ (r, s) :: post ∧
    (∀ e ∈ pre, e.2 < s) ∧ ∀ e ∈ post, e.2 ≤ s

/-- Correctness statement for one detector: all-zero scores give the
default label, and otherwise the first maximal entry is returned. -/
def DetectorOK (scores : List (String × Nat)) (dflt r : String) : Prop :=
  ((∀ e ∈ scores, e.2 = 0) → r = dflt) ∧
    ((∃ e ∈ scores, e.2 ≠ 0) → IsFirstMax scores r)

theorem selectLabel_ok (scores : List (String × Nat)) (dflt : String) :
    DetectorOK scores dflt (selectLabel scores dflt) := by
  cases scores with
  | nil =>
    exact ⟨fun _ => rfl, fun ⟨e, he, _⟩ => absurd he (List.not_mem_nil e)⟩
  | cons s rest =>
    by_cases hb : (s :: rest).all (fun e => e.2 == 0)
    · refine ⟨fun _ => by simp [selectLabel, hb], fun ⟨e, he, hne⟩ => ?_⟩
      have := List.all_eq_true.mp hb e he
      simp only [beq_iff_eq] at this
      exact absurd this hne
    · refine ⟨fun hz => ?_, fun _ => ?_⟩
      · exact absurd (List.all_eq_true.mpr (fun e he => by simp [hz e he])) hb
      · simp only [selectLabel, if_neg hb]
        obtain ⟨pre, post, heq, hlt⟩ := pickMax_first rest s
        refine ⟨pre, (pickMax s rest).2, post, ?_, hlt, ?_⟩
        · rw [heq]
        · intro e he
          have hmem : e ∈ s :: rest := by
            rw [heq]
            exact List.mem_append_right _ (List.mem_cons_of_mem _ he)
          rcases List.mem_cons.mp hmem with rfl | h2
          · exact (pickMax_le rest e).1
          · exact (pickMax_le rest s).2 e h2

theorem kwScore_zero {p : String} {kws : List String}
    (h : ∀ k ∈ kws, containsStr p k = false) : kwScore p kws = 0 := by
  simp only [kwScore, List.length_eq_zero]
  exact List.filter_eq_nil_iff.mpr (fun k hk => by simp [h k hk])

theorem scoresOf_zero {table : List (String × List String)} {p : String}
    (h : ∀ e ∈ table, ∀ k ∈ e.2, containsStr p k = false) :
    scoresOf table p = table.map (fun e => (e.1, 0)) := by
  simp only [scoresOf]
  exact List.map_congr_left (fun e he => by rw [kwScore_zero (h e he)])

/-- C1 counterexample: on the prompt "ninja space medieval forest
underwater" every theme label scores exactly 1 (a full tie), yet
`_detect_theme` returns "ninja" — the first label in declaration order —
and not the designated default "default", refuting the claim that a full
tie yields the default and that declaration order is never used as a
tie-break. -/
theorem c1_counterexample :
    scoresOf themes "ninja space medieval forest underwater" =
      [("ninja", 1), ("space", 1), ("medieval", 1), ("forest", 1),
       ("underwater", 1)] ∧
    detectTheme "ninja space medieval forest underwater" ≠ "default" := by
  decide

/-- C1 (amended): each of the five detectors scores each label as the count
of that label's keywords occurring as substrings of the (case-folded)
prompt — the complexity detector additionally adding 1 to "detailed" when
the whitespace word count exceeds 10 and to "simple" when it is below 5 —
and returns the taxonomy's designated default label exactly when all
scores are zero; otherwise it returns the earliest label in declaration
order among those attaining the maximal score, so declaration order does
break ties at positive scores. -/
theorem c1_amended (p : String) :
    DetectorOK (scoresOf mediaTypes p) "image" (detectMediaType p) ∧
    DetectorOK (scoresOf themes p) "default" (detectTheme p) ∧
    DetectorOK (scoresOf styles p) "default" (detectStyle p) ∧
    DetectorOK (scoresOf moods p) "neutral" (detectMood p) ∧
    DetectorOK (complexityScores p) "medium" (detectComplexity p) :=
  ⟨selectLabel_ok _ _, selectLabel_ok _ _, selectLabel_ok _ _,
   selectLabel_ok _ _, selectLabel_ok _ _⟩

/-- C1 witness: the amended theorem instantiated at the prompts
"ninja space" (a positive two-way tie, where the first maximal entry is
returned) and "hello" (all-zero scores, where the media-type default
"image" is returned). -/
theorem c1_witness :
    IsFirstMax (scoresOf themes "ninja space") (detectTheme "ninja space") ∧
    detectMediaType "hello" = "image" :=
  ⟨(c1_amended "ninja space").2.1.2 (by decide),
   (c1_amended "hello").1.1 (by decide)⟩

/-- C2: for every prompt the confidence field of the analysis record equals
the clamped sum 0.3-or-0.1 (media type) + 0.2 (theme) + 0.2 (style) + 0.1
(mood) + min(len(keywords)/5, 0.2), and consequently always lies in
[0, 1]. -/
theorem c2_confidence (p now : String) :
    (analyzePrompt p now).confidence =
      min ((if (analyzePrompt p now).media_type ≠ "image" then (0.3 : ℚ)
          else 0.1) +
        (if (analyzePrompt p now).theme ≠ "default" then (0.2 : ℚ) else 0) +
        (if (analyzePrompt p now).style ≠ "default" then (0.2 : ℚ) else 0) +
        (if (analyzePrompt p now).mood ≠ "neutral" then (0.1 : ℚ) else 0) +
        min (((analyzePrompt p now).keywords.length : ℚ) / 5) 0.2) 1 ∧
    0 ≤ (analyzePrompt p now).confidence ∧
    (analyzePrompt p now).confidence ≤ 1 := by
  have hc : (analyzePrompt p now).confidence =
      min ((if (analyzePrompt p now).media_type ≠ "image" then (0.3 : ℚ)
          else 0.1) +
        (if (analyzePrompt p now).theme ≠ "default" then (0.2 : ℚ) else 0) +
        (if (analyzePrompt p now).style ≠ "default" then (0.2 : ℚ) else 0) +
        (if (analyzePrompt p now).mood ≠ "neutral" then (0.1 : ℚ) else 0) +
        min (((analyzePrompt p now).keywords.length : ℚ) / 5) 0.2) 1 := rfl
  refine ⟨hc, ?_, hc ▸ min_le_right _ _⟩
  rw [hc]
  refine le_min ?_ zero_le_one
  have t1 : (0 : ℚ) ≤
      if (analyzePrompt p now).media_type ≠ "image" then (0.3 : ℚ) else 0.1 := by
    split <;> norm_num
  have t2 : (0 : ℚ) ≤
      if (analyzePrompt p now).theme ≠ "default" then (0.2 : ℚ) else 0 := by
    split <;> norm_num
  have t3 : (0 : ℚ) ≤
      if (analyzePrompt p now).style ≠ "default" then (0.2 : ℚ) else 0 := by
    split <;> norm_num
  have t4 : (0 : ℚ) ≤
      if (analyzePrompt p now).mood ≠ "neutral" then (0.1 : ℚ) else 0 := by
    split <;> norm_num
  have t5 : (0 : ℚ) ≤
      min (((analyzePrompt p now).keywords.length : ℚ) / 5) 0.2 :=
    le_min (by positivity) (by norm_num)
  linarith

/-- C5 counterexample: on the empty prompt the detected complexity is
"simple" (the empty word list has fewer than 5 words, which bumps the
"simple" score to 1), not "medium" as the claim states. -/
theorem c5_counterexample :
    (analyzePrompt "" "2024-01-01T00:00:00").complexity = "simple" ∧
    (analyzePrompt "" "2024-01-01T00:00:00").complexity ≠ "medium" := by
  decide

/-- C5 (amended): analyze_prompt("") succeeds and returns
media_type="image", theme="default", style="default", mood="neutral",
complexity="simple", keywords=[] and confidence=0.1. -/
theorem c5_amended (now : String) :
    (analyzePrompt "" now).media_type = "image" ∧
    (analyzePrompt "" now).theme = "default" ∧
    (analyzePrompt "" now).style = "default" ∧
    (analyzePrompt "" now).mood = "neutral" ∧
    (analyzePrompt "" now).complexity = "simple" ∧
    (analyzePrompt "" now).keywords = [] ∧
    (analyzePrompt "" now).confidence = 0.1 := by
  refine ⟨rfl, rfl, rfl, rfl, rfl, rfl, ?_⟩
  have h : (analyzePrompt "" now).confidence =
      calcConfidence (detectMediaType (pyLower ""))
        (detectTheme (pyLower "")) (detectStyle (pyLower ""))
        (detectMood (pyLower "")) (extractKeywords (pyLower "")).length :=
    rfl
  rw [h, show detectMediaType (pyLower "") = "image" from rfl,
    show detectTheme (pyLower "") = "default" from rfl,
    show detectStyle (pyLower "") = "default" from rfl,
    show detectMood (pyLower "") = "neutral" from rfl,
    show extractKeywords (pyLower "") = [] from rfl]
  norm_num [calcConfidence]

/-- C3 counterexample: the prompt "ninja ninja" yields keywords
["ninja", "ninja"] — the surviving token "ninja" appears twice, refuting
the claim that each distinct surviving token appears at most once
(_extract_keywords performs no deduplication). -/
theorem c3_counterexample :
    (analyzePrompt "ninja ninja" "2024-01-01T00:00:00").keywords =
      ["ninja", "ninja"] ∧
    ¬ (analyzePrompt "ninja ninja" "2024-01-01T00:00:00").keywords.Nodup := by
  decide

/-- C3 (amended): the keywords field has at most 10 elements, every element
has length strictly greater than 2 and is not in the stop-word set, and
the list is a sublist of the word sequence of the case-folded prompt in
occurrence order — duplicate occurrences of a token are retained, each at
its own position. -/
theorem c3_amended (p now : String) :
    (analyzePrompt p now).keywords.length ≤ 10 ∧
    (∀ w ∈ (analyzePrompt p now).keywords, 2 < w.length ∧ w ∉ stopWords) ∧
    (analyzePrompt p now).keywords.Sublist (pyWords (pyLower p)) := by
  have hk : (analyzePrompt p now).keywords = extractKeywords (pyLower p) := rfl
  refine ⟨?_, ?_, ?_⟩
  · rw [hk]
    simp only [extractKeywords]
    exact List.length_take_le _ _
  · intro w hw
    rw [hk] at hw
    simp only [extractKeywords] at hw
    have hm := List.mem_filter.mp (List.take_subset _ _ hw)
    have h2 := hm.2
    simp only [Bool.and_eq_true, Bool.not_eq_true', decide_eq_true_eq] at h2
    refine ⟨h2.2, fun hmem => ?_⟩
    have hcontains : stopWords.contains w = true := List.elem_iff.mpr hmem
    rw [hcontains] at h2
    exact absurd h2.1 (by simp)
  · rw [hk]
    simp only [extractKeywords]
    exact (List.take_sublist _ _).trans (List.filter_sublist _)

/-- C3 witness: the amended theorem applied at the prompt "ninja warrior"
and its first keyword. -/
theorem c3_witness :
    2 < ("ninja" : String).length ∧ ("ninja" : String) ∉ stopWords :=
  (c3_amended "ninja warrior" "2024-01-01T00:00:00").2.1 "ninja" (by decide)

/-- C4 counterexample: two calls to analyze_prompt on the same prompt made
at different times return records that differ (in the analysis_timestamp
field, which records the call time), so the records are not equal and the
function is not a pure function of the prompt alone. -/
theorem c4_counterexample :
    analyzePrompt "ninja" "2024-01-01T00:00:00" ≠
      analyzePrompt "ninja" "2024-01-01T00:00:01" :=
  fun h => absurd (congrArg Analysis.analysis_timestamp h) (by decide)

/-- C4 (amended): two calls to analyze_prompt on the same prompt agree on
every field of the analysis record except analysis_timestamp; the result
is a pure function of the prompt and the call time, with no other hidden
state. -/
theorem c4_amended (p t1 t2 : String) :
    (analyzePrompt p t1).original_prompt =
      (analyzePrompt p t2).original_prompt ∧
    (analyzePrompt p t1).media_type = (analyzePrompt p t2).media_type ∧
    (analyzePrompt p t1).theme = (analyzePrompt p t2).theme ∧
    (analyzePrompt p t1).style = (analyzePrompt p t2).style ∧
    (analyzePrompt p t1).mood = (analyzePrompt p t2).mood ∧
    (analyzePrompt p t1).complexity = (analyzePrompt p t2).complexity ∧
    (analyzePrompt p t1).keywords = (analyzePrompt p t2).keywords ∧
    (analyzePrompt p t1).confidence = (analyzePrompt p t2).confidence ∧
    (analyzePrompt p t1).generation_strategy =
      (analyzePrompt p t2).generation_strategy ∧
    (analyzePrompt p t1).estimated_time =
      (analyzePrompt p t2).estimated_time ∧
    (analyzePrompt p t1).recommended_format =
      (analyzePrompt p t2).recommended_format :=
  ⟨rfl, rfl, rfl, rfl, rfl, rfl, rfl, rfl, rfl, rfl, rfl⟩

/-- Decides that the case-folded prompt contains no keyword of any of the
five taxonomies as a substring. -/
def noTaxonomyKeyword (p : String) : Bool :=
  [mediaTypes, themes, styles, moods, complexityIndicators].all
    (fun table => table.all
      (fun e => e.2.all (fun k => !containsStr (pyLower p) k)))

theorem noTaxonomyKeyword_table {p : String} (h : noTaxonomyKeyword p = true)
    {table : List (String × List String)}
    (ht : table ∈ [mediaTypes, themes, styles, moods, complexityIndicators]) :
    ∀ e ∈ table, ∀ k ∈ e.2, containsStr (pyLower p) k = false := by
  intro e he k hk
  have h1 := List.all_eq_true.mp h table ht
  have h2 := List.all_eq_true.mp h1 e he
  have h3 := List.all_eq_true.mp h2 k hk
  simpa using h3

/-- C6 counterexample: the prompt "hello" contains no taxonomy keyword, yet
analyze_prompt returns complexity "simple" (the one-word prompt is below
the 5-word threshold), not "medium", and confidence 0.3 (the base 0.1
plus the keyword-richness term for the single extracted keyword), not the
base value 0.1. -/
theorem c6_counterexample :
    noTaxonomyKeyword "hello" = true ∧
    (analyzePrompt "hello" "2024-01-01T00:00:00").complexity = "simple" ∧
    (analyzePrompt "hello" "2024-01-01T00:00:00").confidence ≠ 0.1 := by
  refine ⟨by decide, by decide, ?_⟩
  have hc : (analyzePrompt "hello" "2024-01-01T00:00:00").confidence =
      calcConfidence "image" "default" "default" "neutral" 1 := rfl
  rw [hc]
  norm_num [calcConfidence]

/-- C6 (amended): for every prompt containing no taxonomy keyword,
analyze_prompt returns the default labels media_type="image",
theme="default", style="default", mood="neutral"; the complexity is
determined by the word count alone ("detailed" above 10 words, "simple"
below 5, otherwise "medium"); and the confidence equals the base 0.1 plus
the keyword-richness term min(len(keywords)/5, 0.2). -/
theorem c6_amended (p now : String) (h : noTaxonomyKeyword p = true) :
    (analyzePrompt p now).media_type = "image" ∧
    (analyzePrompt p now).theme = "default" ∧
    (analyzePrompt p now).style = "default" ∧
    (analyzePrompt p now).mood = "neutral" ∧
    (analyzePrompt p now).complexity =
      (if 10 < wordCount (pyLower p) then "detailed"
       else if wordCount (pyLower p) < 5 then "simple" else "medium") ∧
    (analyzePrompt p now).confidence =
      0.1 + min (((analyzePrompt p now).keywords.length : ℚ) / 5) 0.2 := by
  have hmt : detectMediaType (pyLower p) = "image" := by
    unfold detectMediaType
    rw [scoresOf_zero (noTaxonomyKeyword_table h (by simp))]
    rfl
  have hth : detectTheme (pyLower p) = "default" := by
    unfold detectTheme
    rw [scoresOf_zero (noTaxonomyKeyword_table h (by simp))]
    rfl
  have hst : detectStyle (pyLower p) = "default" := by
    unfold detectStyle
    rw [scoresOf_zero (noTaxonomyKeyword_table h (by simp))]
    rfl
  have hmd : detectMood (pyLower p) = "neutral" := by
    unfold detectMood
    rw [scoresOf_zero (noTaxonomyKeyword_table h (by simp))]
    rfl
  have hcx : detectComplexity (pyLower p) =
      (if 10 < wordCount (pyLower p) then "detailed"
       else if wordCount (pyLower p) < 5 then "simple" else "medium") := by
    unfold detectComplexity complexityScores
    rw [scoresOf_zero (noTaxonomyKeyword_table h (by simp))]
    by_cases h1 : 10 < wordCount (pyLower p)
    · rw [if_pos h1, if_pos h1]
      rfl
    · rw [if_neg h1, if_neg h1]
      by_cases h2 : wordCount (pyLower p) < 5
      · rw [if_pos h2, if_pos h2]
        rfl
      · rw [if_neg h2, if_neg h2]
        rfl
  refine ⟨hmt, hth, hst, hmd, hcx, ?_⟩
  have hc : (analyzePrompt p now).confidence =
      calcConfidence (detectMediaType (pyLower p)) (detectTheme (pyLower p))
        (detectStyle (pyLower p)) (detectMood (pyLower p))
        (extractKeywords (pyLower p)).length := rfl
  have hk : (analyzePrompt p now).keywords = extractKeywords (pyLower p) := rfl
  rw [hc, hmt, hth, hst, hmd, hk]
  simp only [calcConfidence, ne_eq, not_true_eq_false, if_false, add_zero]
  rw [min_eq_left
    (le_trans (add_le_add_left (min_le_right _ _) _) (by norm_num))]

/-- C6 witness: the amended theorem instantiated at the keyword-free prompt
"hello". -/
theorem c6_witness :
    (analyzePrompt "hello" "2024-01-01T00:00:00").media_type = "image" ∧
    (analyzePrompt "hello" "2024-01-01T00:00:00").confidence =
      0.1 + min
        (((analyzePrompt "hello" "2024-01-01T00:00:00").keywords.length : ℚ)
          / 5) 0.2 :=
  ⟨(c6_amended "hello" "2024-01-01T00:00:00" (by decide)).1,
   (c6_amended "hello" "2024-01-01T00:00:00" (by decide)).2.2.2.2.2⟩

/-- Specification-side: the explicit-duration-keyword tier of the video
duration resolver (first tier of the override chain). -/
def videoExplicitDur (pl : String) : Option Nat :=
  if anyKw pl ["quick", "fast", "brief"] then some (presetD "quick")
  else if anyKw pl ["short"] then some (presetD "short")
  else if anyKw pl ["long", "extended", "detailed"] then some (presetD "long")
  else none

/-- Specification-side: the complexity tier of the video duration resolver,
falling through to the fixed 10-second medium preset. -/
def videoComplexityDur (cx : String) : Nat :=
  if cx = "simple" then presetD "short"
  else if cx = "detailed" then presetD "medium"
  else if cx = "professional" then presetD "long"
  else presetD "medium"

/-- Specification-side: the explicit-duration-keyword tier of the audio
duration resolver. -/
def audioExplicitDur (pl : String) : Option Nat :=
  if anyKw pl ["short", "brief", "quick"] then some 10
  else if anyKw pl ["long", "extended"] then some 60
  else if anyKw pl ["loop", "background"] then some 30
  else none

/-- Specification-side: the complexity tier of the audio duration resolver,
falling through to the fixed 30-second default. -/
def audioComplexityDur (cx : String) : Nat :=
  if cx = "simple" then 15
  else if cx = "detailed" then 45
  else if cx = "professional" then 60
  else 30

/-- C7 counterexample: "loop" is not an explicit duration keyword of the
video resolver — on the prompt "loop" the video duration still depends on
the complexity argument (5 for "simple", 15 for "professional"), so the
claimed keyword priority of "loop" over the complexity tier fails for
video generation ("loop" is explicit only in the audio resolver). -/
theorem c7_counterexample :
    videoDetermineDuration [] "loop" "simple" = 5 ∧
    videoDetermineDuration [] "loop" "professional" = 15 ∧
    videoDetermineDuration [] "loop" "simple" ≠
      videoDetermineDuration [] "loop" "professional" := by
  decide

/-- C7 (amended): both duration resolvers are three-tier ordered override
chains, first match wins: the explicit duration keywords — for video
quick/fast/brief, short, long/extended/detailed (no "loop"); for audio
short/brief/quick, long/extended, loop/background — take priority over
the complexity-derived duration, which takes priority over the fixed
default of 30 seconds for audio and the 10-second medium preset for
video. -/
theorem c7_amended (kws : List String) (p cx : String) :
    videoDetermineDuration kws p cx =
      (videoExplicitDur (pyLower p)).getD (videoComplexityDur cx) ∧
    audioDetermineDuration kws p cx =
      (audioExplicitDur (pyLower p)).getD (audioComplexityDur cx) ∧
    (cx ∉ ["simple", "detailed", "professional"] →
      videoComplexityDur cx = 10 ∧ audioComplexityDur cx = 30) := by
  refine ⟨?_, ?_, ?_⟩
  · simp only [videoDetermineDuration, videoExplicitDur, videoComplexityDur]
    by_cases h1 : anyKw (pyLower p) ["quick", "fast", "brief"] <;>
      by_cases h2 : anyKw (pyLower p) ["short"] <;>
        by_cases h3 : anyKw (pyLower p) ["long", "extended", "detailed"] <;>
          simp [h1, h2, h3]
  · simp only [audioDetermineDuration, audioExplicitDur, audioComplexityDur]
    by_cases h1 : anyKw (pyLower p) ["short", "brief", "quick"] <;>
      by_cases h2 : anyKw (pyLower p) ["long", "extended"] <;>
        by_cases h3 : anyKw (pyLower p) ["loop", "background"] <;>
          simp [h1, h2, h3]
  · intro h
    have e1 : cx ≠ "simple" := fun e => h (by simp [e])
    have e2 : cx ≠ "detailed" := fun e => h (by simp [e])
    have e3 : cx ≠ "professional" := fun e => h (by simp [e])
    constructor
    · simp [videoComplexityDur, e1, e2, e3, presetD, durationPresets]
    · simp [audioComplexityDur, e1, e2, e3]

/-- C7 witness: the amended theorem applied at complexity "medium", which
is in neither complexity tier, yielding the fixed defaults. -/
theorem c7_witness :
    videoComplexityDur "medium" = 10 ∧ audioComplexityDur "medium" = 30 :=
  (c7_amended [] "x" "medium").2.2 (by decide)

/-- Decides that no animation-type cue of `_determine_animation_type`
occurs in the case-folded prompt. -/
def noAnimationCue (p : String) : Bool :=
  !(anyKw (pyLower p) ["walk", "walking", "move", "moving", "run", "running"] ||
    anyKw (pyLower p) ["attack", "fighting", "battle", "combat", "strike"] ||
    anyKw (pyLower p) ["idle", "standing", "breathing", "waiting"] ||
    anyKw (pyLower p) ["flow", "flowing", "water", "wind", "particles"] ||
    anyKw (pyLower p) ["transition", "fade", "slide", "ui", "interface"] ||
    anyKw (pyLower p) ["particle", "effect", "magic", "sparkle", "explosion"] ||
    anyKw (pyLower p) ["text", "title", "reveal", "typewriter"] ||
    anyKw (pyLower p) ["logo", "brand", "intro", "opening"])

/-- Decides that no explicit duration keyword of the video resolver occurs
in the case-folded prompt. -/
def noExplicitVideoDurationKw (p : String) : Bool :=
  !(anyKw (pyLower p) ["quick", "fast", "brief"] ||
    anyKw (pyLower p) ["short"] ||
    anyKw (pyLower p) ["long", "extended", "detailed"])

/-- C8: when the analysis keywords contain "walking" (keywords are words of
the case-folded prompt, so "walking" — and hence the cue "walk" — occurs
in the prompt the dispatcher inspects), the video dispatcher selects
"character_walk"; when no sub-type cue occurs in the prompt it selects the
fallback "character_idle" rather than failing; and absent explicit
duration keywords, complexity "medium" yields the 10-second medium
preset. -/
theorem c8_video_dispatch (p now : String) (kws : List String) :
    ("walking" ∈ (analyzePrompt p now).keywords →
      determineAnimationType (analyzePrompt p now).keywords p =
        "character_walk") ∧
    (noAnimationCue p = true →
      determineAnimationType kws p = "character_idle") ∧
    (noExplicitVideoDurationKw p = true →
      videoDetermineDuration kws p "medium" = 10) := by
  refine ⟨?_, ?_, ?_⟩
  · intro hmem
    have hw : "walking" ∈ extractKeywords (pyLower p) := hmem
    have hsub : isSubB ("walking" : String).data (pyLower p).data = true :=
      mem_pyWords_isSubB (extractKeywords_subset_pyWords hw)
    have hwalk : isSubB ("walk" : String).data (pyLower p).data = true :=
      isSubB_trans_prefixB (by decide) hsub
    have hany : anyKw (pyLower p)
        ["walk", "walking", "move", "moving", "run", "running"] = true := by
      simp only [anyKw, List.any_eq_true]
      exact ⟨"walk", by simp, hwalk⟩
    simp [determineAnimationType, hany]
  · intro h
    simp only [noAnimationCue, Bool.not_eq_true', Bool.or_eq_false_iff] at h
    obtain ⟨⟨⟨⟨⟨⟨⟨h1, h2⟩, h3⟩, h4⟩, h5⟩, h6⟩, h7⟩, h8⟩ := h
    simp [determineAnimationType, h1, h2, h3, h4, h5, h6, h7, h8]
  · intro h
    simp only [noExplicitVideoDurationKw, Bool.not_eq_true',
      Bool.or_eq_false_iff] at h
    obtain ⟨⟨h1, h2⟩, h3⟩ := h
    simp [videoDetermineDuration, h1, h2, h3, presetD, durationPresets]

/-- C8 witness: the dispatcher theorem applied at the prompt "walking"
(whose keyword list is ["walking"]) and at the cue-free prompt "zzz". -/
theorem c8_witness :
    determineAnimationType
      (analyzePrompt "walking" "2024-01-01T00:00:00").keywords "walking" =
      "character_walk" ∧
    determineAnimationType [] "zzz" = "character_idle" ∧
    videoDetermineDuration [] "zzz" "medium" = 10 :=
  ⟨(c8_video_dispatch "walking" "2024-01-01T00:00:00" []).1 (by decide),
   (c8_video_dispatch "zzz" "2024-01-01T00:00:00" []).2.1 (by decide),
   (c8_video_dispatch "zzz" "2024-01-01T00:00:00" []).2.2 (by decide)⟩

/-- C9: the mood-to-music-style lookup of `_generate_music` is total — for
every mood that is not a key of the music-style table the 'peaceful'
configuration (tempo 80, key G, major scale) is used, and no missing-key
error can occur. -/
theorem c9_music_style_total (mood : String)
    (h : mood ∉ musicStyles.map (fun e => e.1)) :
    musicStyleFor mood = peacefulStyle ∧
    (musicStyleFor mood).tempo = 80 ∧
    (musicStyleFor mood).key = "G" ∧
    (musicStyleFor mood).scale = "major" := by
  have hf : musicStyles.find? (fun e => e.1 == mood) = none := by
    apply List.find?_eq_none.mpr
    intro e he hbeq
    exact h (List.mem_map.mpr ⟨e, he, eq_of_beq hbeq⟩)
  have hms : musicStyleFor mood = peacefulStyle := by
    simp [musicStyleFor, hf]
  refine ⟨hms, ?_, ?_, ?_⟩ <;> rw [hms] <;> rfl

/-- C9 witness: the totality theorem applied at the default mood "neutral",
which is not a key of the music-style table. -/
theorem c9_witness :
    musicStyleFor "neutral" = peacefulStyle ∧
    (musicStyleFor "neutral").tempo = 80 :=
  ⟨(c9_music_style_total "neutral" (by decide)).1,
   (c9_music_style_total "neutral" (by decide)).2.1⟩

/-- C10 counterexample: the prompt "quick detailed" contains "detailed",
yet the video duration resolver returns 2 (the quick preset), not 15 —
the quick/fast/brief tier is checked before the tier containing
"detailed", so containing "detailed" does not by itself force the long
preset. -/
theorem c10_counterexample :
    containsStr (pyLower "quick detailed") "detailed" = true ∧
    videoDetermineDuration [] "quick detailed" "simple" = 2 ∧
    videoDetermineDuration [] "quick detailed" "simple" ≠ 15 := by
  decide

/-- C10 (amended): for every prompt whose case-folded text contains
"detailed" and contains none of the earlier-tier keywords quick, fast,
brief, short, the video duration resolver returns the 15-second long
preset regardless of the complexity argument, because "detailed" is
checked in the explicit-duration-keyword tier before complexity is
consulted. -/
theorem c10_amended (kws : List String) (p cx : String)
    (hd : containsStr (pyLower p) "detailed" = true)
    (hq : anyKw (pyLower p) ["quick", "fast", "brief"] = false)
    (hs : anyKw (pyLower p) ["short"] = false) :
    videoDetermineDuration kws p cx = 15 := by
  have h3 : anyKw (pyLower p) ["long", "extended", "detailed"] = true := by
    simp only [anyKw, List.any_eq_true]
    exact ⟨"detailed", by simp, hd⟩
  simp [videoDetermineDuration, hq, hs, h3, presetD, durationPresets]

/-- C10 witness: the amended theorem applied at the prompt
"a detailed scene" with complexity "simple". -/
theorem c10_witness :
    videoDetermineDuration [] "a detailed scene" "simple" = 15 :=
  c10_amended [] "a detailed scene" "simple" (by decide) (by decide)
    (by decide)
